import Mathlib

/-!
Shallow embedding of the seasonal anomaly-detection and classification
engine of src/streamlit_app.py (repository
TheSeems/HSE_AP_HW1_WeatherAnalysis).

Modelling conventions:

* float64 data values are embedded as rationals; a float NaN produced by
  the library statistics (incomplete rolling window, sample std of a
  singleton group) is embedded as none of Option.
* The standard deviations computed by numpy (np.nanstd, default ddof = 0)
  and by pandas (std aggregation, ddof = 1) are square roots of rational
  variances, hence irrational in general.  The embedding stores the
  radicand (popVar, sampleVar); the real-valued std is Real.sqrt of it,
  and the boolean band tests of the source are embedded through the
  decidable squared comparisons twoSqrtLtB and leTwoSqrtB, proved
  equivalent to the real comparisons in twoSqrtLtB_iff and leTwoSqrtB_iff.
* pandas rolling(window = 30, center = True) with the default min_periods
  attaches to position i the window of indices i - 15 .. i + 14 (the
  centering offset of the fixed-window indexer is (30 - 1) / 2 = 14, so
  the trailing window ending at i + 14 is relabelled to i); the cell is
  NaN unless the full 30-element window exists.
* Comparisons of floats against NaN are false, so a row whose rolling
  statistics are NaN is never flagged anomalous, and a chained band
  comparison against a NaN std is false.
-/

namespace WeatherAnalysis

/-- Arithmetic mean of a list of rationals (numpy and pandas mean). -/
def listMean (l : List ℚ) : ℚ := l.sum / l.length

/-- Squared deviations from the mean. -/
def centeredSq (l : List ℚ) : List ℚ := l.map fun x => (x - listMean l) ^ 2

/-- Population variance: the square of np.nanstd with its default ddof = 0
(on NaN-free data nanstd skips nothing). -/
def popVar (l : List ℚ) : ℚ := (centeredSq l).sum / l.length

/-- Sample variance: the square of the pandas std aggregation (ddof = 1). -/
def sampleVar (l : List ℚ) : ℚ := (centeredSq l).sum / ((l.length : ℚ) - 1)

/-- Median as computed by np.nanmedian on NaN-free data: middle element of
the sorted list when the length is odd, otherwise the average of the two
middle elements. -/
def nanmedian (l : List ℚ) : ℚ :=
  let s := List.insertionSort (· ≤ ·) l
  if s.length % 2 = 1 then s.getD (s.length / 2) 0
  else (s.getD (s.length / 2 - 1) 0 + s.getD (s.length / 2) 0) / 2

/-- Sample variance of a group as the pandas std aggregation reports it:
NaN (none) when the group has fewer than two members. -/
def sampleVarOpt (l : List ℚ) : Option ℚ :=
  if 2 ≤ l.length then some (sampleVar l) else none

/-- Centered rolling window of pandas rolling(window = 30, center = True):
at position i the slice of indices i - 15 .. i + 14, available only when
it fits entirely inside the series. -/
def window30 (l : List ℚ) (i : ℕ) : Option (List ℚ) :=
  if 15 ≤ i ∧ i + 15 ≤ l.length then some ((l.drop (i - 15)).take 30) else none

/-- One cell of the rolling transform: statistic f over the centered
window at position i, NaN (none) when the window is incomplete. -/
def rollingAt (f : List ℚ → ℚ) (l : List ℚ) (i : ℕ) : Option ℚ :=
  (window30 l i).map f

/-- Column produced by x.rolling(window = 30, center = True).apply(f). -/
def rollingApply (f : List ℚ → ℚ) (l : List ℚ) : List (Option ℚ) :=
  (List.range l.length).map (rollingAt f l)

/-- Decidable form of the comparison 2 * sqrt v < c used by the anomaly
rule; twoSqrtLtB_iff proves it equivalent to the real comparison. -/
def twoSqrtLtB (v c : ℚ) : Bool := decide (0 < c) && decide (4 * v < c ^ 2)

/-- Decidable form of the comparison c <= 2 * sqrt v; leTwoSqrtB_iff
proves it equivalent to the real comparison. -/
def leTwoSqrtB (c v : ℚ) : Bool := decide (c ≤ 0) || decide (c ^ 2 ≤ 4 * v)

/-- Anomaly test of process_data lines 51-52: temperature strictly below
center - 2 * std or strictly above center + 2 * std, with std = sqrt v. -/
def outsideBand (t m v : ℚ) : Bool := twoSqrtLtB v (m - t) || twoSqrtLtB v (t - m)

/-- Chained comparison of is_temperature_normal line 38:
mean - 2 * std <= t <= mean + 2 * std, with std = sqrt v. -/
def inBand (t m v : ℚ) : Bool := leTwoSqrtB (m - t) v && leTwoSqrtB (t - m) v

/-- Band comparison when the stored std may be NaN: a comparison against
NaN is false, so the chained comparison is false. -/
def inBandOpt (t m : ℚ) (v : Option ℚ) : Bool :=
  match v with
  | none => false
  | some v => inBand t m v

/-- Anomaly column cell: when either rolling statistic is NaN both strict
comparisons are false and the row is not flagged. -/
def anomalyFlag (t : ℚ) (avg dev : Option ℚ) : Bool :=
  match avg, dev with
  | some m, some v => outsideBand t m v
  | _, _ => false

/-- One input row of the uploaded CSV: city, temperature, season.  The
timestamp column is not consulted by process_data and is omitted. -/
structure Obs where
  city : String
  temperature : ℚ
  season : String
  deriving DecidableEq

/-- One output row of process_data: the input columns, the merged seasonal
statistics, the rolling statistics and the anomaly flag.  The source
columns seasonal_std and temp_m_std hold the square roots of the stored
radicands seasonal_var and temp_m_var. -/
structure Row where
  city : String
  season : String
  temperature : ℚ
  seasonal_mean : ℚ
  seasonal_var : Option ℚ
  temp_m_avg : Option ℚ
  temp_m_var : Option ℚ
  anomaly : Bool
  deriving DecidableEq

/-- Temperatures of the rows of one city, in frame order: the series the
per-city groupby transform hands to the rolling computation. -/
def cityTemps (df : List Obs) (c : String) : List ℚ :=
  (df.filter fun o => o.city = c).map fun o => o.temperature

/-- Temperatures of one (city, season) group of the seasonal
aggregation. -/
def seasonTemps (df : List Obs) (c s : String) : List ℚ :=
  (df.filter fun o => decide (o.city = c) && decide (o.season = s)).map
    fun o => o.temperature

/-- Number of rows of city c in a prefix of the frame: the position the
next row of city c occupies inside its groupby series. -/
def countCity (df : List Obs) (c : String) : ℕ :=
  (df.filter fun o => o.city = c).length

/-- Row built by process_data for an observation o whose position inside
the groupby series of its city is j, in the frame df. -/
def mkRow (df : List Obs) (j : ℕ) (o : Obs) : Row :=
  { city := o.city
    season := o.season
    temperature := o.temperature
    seasonal_mean := listMean (seasonTemps df o.city o.season)
    seasonal_var := sampleVarOpt (seasonTemps df o.city o.season)
    temp_m_avg := rollingAt nanmedian (cityTemps df o.city) j
    temp_m_var := rollingAt popVar (cityTemps df o.city) j
    anomaly := anomalyFlag o.temperature (rollingAt nanmedian (cityTemps df o.city) j)
      (rollingAt popVar (cityTemps df o.city) j) }

/-- Helper of processData: walks the frame keeping the prefix already
seen, so that each row knows its position inside its city series. -/
def processAux (df seen : List Obs) : List Obs → List Row
  | [] => []
  | o :: rest => mkRow df (countCity seen o.city) o :: processAux df (seen ++ [o]) rest

/-- Embedding of process_data (src/streamlit_app.py lines 41-53): merge of
the per-(city, season) mean and sample std of the raw temperature, the
per-city centered rolling median and rolling population std of width 30,
and the anomaly flag.  Row order of the frame is preserved. -/
def processData (df : List Obs) : List Row :=
  processAux df [] df

/-- Row the engine produces for an observation o at position j of a
frame when the whole frame is the city sub-frame sub of o: used to state
per-city noninterference of processData. -/
def mkRowSub (sub : List Obs) (j : ℕ) (o : Obs) : Row :=
  { city := o.city
    season := o.season
    temperature := o.temperature
    seasonal_mean := listMean ((sub.filter fun p => p.season = o.season).map
      fun p => p.temperature)
    seasonal_var := sampleVarOpt ((sub.filter fun p => p.season = o.season).map
      fun p => p.temperature)
    temp_m_avg := rollingAt nanmedian (sub.map fun p => p.temperature) j
    temp_m_var := rollingAt popVar (sub.map fun p => p.temperature) j
    anomaly := anomalyFlag o.temperature
      (rollingAt nanmedian (sub.map fun p => p.temperature) j)
      (rollingAt popVar (sub.map fun p => p.temperature) j) }

/-- Per-city view of the engine: rows built from the city sub-frame sub
alone, numbering the observations from j on. -/
def subProcess (sub : List Obs) : ℕ → List Obs → List Row
  | _, [] => []
  | j, o :: rest => mkRowSub sub j o :: subProcess sub (j + 1) rest

/-- Embedding of is_temperature_normal (lines 35-38).  The source selects
the rows matching (city, season) and reads .values[0]; an empty selection
raises IndexError, embedded as none.  Otherwise the chained band
comparison against the seasonal statistics of the first match returns. -/
def is_temperature_normal (data : List Row) (current_city : String)
    (current_city_temp : ℚ) (season : String) : Option Bool :=
  match data.filter fun r => decide (r.city = current_city) && decide (r.season = season) with
  | [] => none
  | r :: _ => some (inBandOpt current_city_temp r.seasonal_mean r.seasonal_var)

/-- HTTP-style reply of the weather service: a status code and the body
temperature field. -/
structure WeatherResponse where
  status : ℕ
  temp : ℚ
  deriving DecidableEq

/-- Embedding of get_current_temperature_async (lines 20-32): None on any
non-200 status, the body temperature on 200. -/
def get_current_temperature (resp : WeatherResponse) : Option ℚ :=
  if resp.status ≠ 200 then none else some resp.temp

/-- Python truthiness guard of main line 130 (if not current_temp): None
and the float 0.0 are both falsy. -/
def pythonFalsy (o : Option ℚ) : Bool :=
  match o with
  | none => true
  | some t => decide (t = 0)

/-- Classification stage of main (lines 129-169): fetch the current
temperature, return early when the fetched value is falsy, otherwise
invoke the normality classifier. -/
def mainClassify (rows : List Row) (city season : String)
    (resp : WeatherResponse) : Option Bool :=
  let cur := get_current_temperature resp
  if pythonFalsy cur then none
  else
    match cur with
    | some t => is_temperature_normal rows city t season
    | none => none

/-- Modelled from the spec (section 4.4): the rolling-derived seasonal
baseline mean, aggregating the already-smoothed center_stat values of one
(city, season) group; none when no defined center_stat exists.  The
source has no such aggregation; this definition exists only to compare
the spec wording against what the code computes. -/
def specCenterStatSeasonalMean (rows : List Row) (c s : String) : Option ℚ :=
  let vals := ((rows.filter fun r => decide (r.city = c) && decide (r.season = s)).filterMap
    fun r => r.temp_m_avg)
  if vals.isEmpty then none else some (listMean vals)

/-- Concrete 30-observation temperature series separating the median from
the mean: 29 zeros followed by one 30. -/
def skewSeries : List ℚ :=
  [0, 0, 0, 0, 0, 0, 0, 0, 0, 0, 0, 0, 0, 0, 0, 0, 0, 0, 0, 0, 0, 0, 0, 0, 0, 0, 0, 0, 0, 30]

/-- Seasonal mean the classifier actually reads: the seasonal_mean cell of
the first row matching (city, season), as on line 36 of the source. -/
def usedSeasonalMean (rows : List Row) (c s : String) : Option ℚ :=
  ((rows.filter fun r => decide (r.city = c) && decide (r.season = s)).head?).map
    fun r => r.seasonal_mean

/-! Bridging lemmas: the decidable squared comparisons agree with the
real comparisons against 2 * sqrt. -/

lemma two_mul_sqrt_lt_iff {v c : ℝ} : 2 * Real.sqrt v < c ↔ 0 < c ∧ 4 * v < c ^ 2 := by
  have hs : 2 * Real.sqrt v = Real.sqrt (4 * v) := by
    rw [show (4 : ℝ) * v = 2 ^ 2 * v by ring,
      Real.sqrt_mul (by norm_num : (0 : ℝ) ≤ 2 ^ 2), Real.sqrt_sq (by norm_num : (0 : ℝ) ≤ 2)]
  rw [hs]
  constructor
  · intro h
    have hc : 0 < c := lt_of_le_of_lt (Real.sqrt_nonneg _) h
    exact ⟨hc, (Real.sqrt_lt' hc).mp h⟩
  · rintro ⟨hc, h4⟩
    exact (Real.sqrt_lt' hc).mpr h4

lemma le_two_mul_sqrt_iff {v c : ℝ} : c ≤ 2 * Real.sqrt v ↔ c ≤ 0 ∨ c ^ 2 ≤ 4 * v := by
  have hs : 2 * Real.sqrt v = Real.sqrt (4 * v) := by
    rw [show (4 : ℝ) * v = 2 ^ 2 * v by ring,
      Real.sqrt_mul (by norm_num : (0 : ℝ) ≤ 2 ^ 2), Real.sqrt_sq (by norm_num : (0 : ℝ) ≤ 2)]
  rw [hs]
  by_cases hc : c ≤ 0
  · exact iff_of_true (hc.trans (Real.sqrt_nonneg _)) (Or.inl hc)
  · push_neg at hc
    rw [Real.le_sqrt' hc]
    constructor
    · exact Or.inr
    · rintro (h | h)
      · exact absurd h (not_le.mpr hc)
      · exact h

lemma twoSqrtLtB_iff (v c : ℚ) :
    twoSqrtLtB v c = true ↔ 2 * Real.sqrt (v : ℝ) < (c : ℝ) := by
  rw [two_mul_sqrt_lt_iff]
  simp only [twoSqrtLtB, Bool.and_eq_true, decide_eq_true_eq]
  constructor
  · rintro ⟨h1, h2⟩
    exact ⟨by exact_mod_cast h1, by exact_mod_cast h2⟩
  · rintro ⟨h1, h2⟩
    exact ⟨by exact_mod_cast h1, by exact_mod_cast h2⟩

lemma leTwoSqrtB_iff (c v : ℚ) :
    leTwoSqrtB c v = true ↔ (c : ℝ) ≤ 2 * Real.sqrt (v : ℝ) := by
  rw [le_two_mul_sqrt_iff]
  simp only [leTwoSqrtB, Bool.or_eq_true, decide_eq_true_eq]
  constructor
  · rintro (h | h)
    · exact Or.inl (by exact_mod_cast h)
    · exact Or.inr (by exact_mod_cast h)
  · rintro (h | h)
    · exact Or.inl (by exact_mod_cast h)
    · exact Or.inr (by exact_mod_cast h)

lemma outsideBand_iff (t m v : ℚ) :
    outsideBand t m v = true ↔
      ((t : ℝ) < (m : ℝ) - 2 * Real.sqrt (v : ℝ) ∨
        (m : ℝ) + 2 * Real.sqrt (v : ℝ) < (t : ℝ)) := by
  rw [outsideBand, Bool.or_eq_true, twoSqrtLtB_iff, twoSqrtLtB_iff]
  constructor
  · rintro (h | h)
    · left; push_cast at h; linarith
    · right; push_cast at h; linarith
  · rintro (h | h)
    · left; push_cast; linarith
    · right; push_cast; linarith

lemma inBand_sq (m σ t : ℚ) (hσ : 0 ≤ σ) :
    inBand t m (σ ^ 2) = true ↔ (m - 2 * σ ≤ t ∧ t ≤ m + 2 * σ) := by
  have hσR : (0 : ℝ) ≤ (σ : ℝ) := by exact_mod_cast hσ
  have hsq : Real.sqrt (((σ ^ 2 : ℚ) : ℝ)) = (σ : ℝ) := by
    push_cast
    exact Real.sqrt_sq hσR
  rw [inBand, Bool.and_eq_true, leTwoSqrtB_iff, leTwoSqrtB_iff, hsq]
  constructor
  · rintro ⟨h1, h2⟩
    push_cast at h1 h2
    constructor
    · exact_mod_cast (by linarith : ((m : ℝ) - 2 * σ ≤ (t : ℝ)))
    · exact_mod_cast (by linarith : ((t : ℝ) ≤ (m : ℝ) + 2 * σ))
  · rintro ⟨h1, h2⟩
    have h1R : ((m : ℝ) - 2 * σ ≤ (t : ℝ)) := by exact_mod_cast h1
    have h2R : ((t : ℝ) ≤ (m : ℝ) + 2 * σ) := by exact_mod_cast h2
    constructor
    · push_cast; linarith
    · push_cast; linarith

/-- C2: for every baseline (mean, std) with a nonnegative std and every
reading t, the normality classifier answers true exactly when
mean - 2 * std <= t <= mean + 2 * std, both bounds inclusive; for the
fixed baseline mean = 20, std = 2 the readings 16 and 24 classify as
normal and 15.9 and 24.1 as abnormal. -/
theorem normality_band_rule :
    (∀ (m σ t : ℚ), 0 ≤ σ →
      (is_temperature_normal [⟨"C", "S", 0, m, some (σ ^ 2), none, none, false⟩] "C" t "S"
          = some true ↔ (m - 2 * σ ≤ t ∧ t ≤ m + 2 * σ)))
    ∧ is_temperature_normal [⟨"C", "S", 0, 20, some 4, none, none, false⟩] "C" 16 "S"
        = some true
    ∧ is_temperature_normal [⟨"C", "S", 0, 20, some 4, none, none, false⟩] "C" 24 "S"
        = some true
    ∧ is_temperature_normal [⟨"C", "S", 0, 20, some 4, none, none, false⟩] "C" (159 / 10) "S"
        = some false
    ∧ is_temperature_normal [⟨"C", "S", 0, 20, some 4, none, none, false⟩] "C" (241 / 10) "S"
        = some false := by
  refine ⟨?_, by norm_num [is_temperature_normal, inBandOpt, inBand, leTwoSqrtB, List.filter],
    by norm_num [is_temperature_normal, inBandOpt, inBand, leTwoSqrtB, List.filter],
    by norm_num [is_temperature_normal, inBandOpt, inBand, leTwoSqrtB, List.filter],
    by norm_num [is_temperature_normal, inBandOpt, inBand, leTwoSqrtB, List.filter]⟩
  intro m σ t hσ
  simp only [is_temperature_normal, List.filter, inBandOpt, decide_True, Bool.and_self,
    Option.some.injEq]
  exact inBand_sq m σ t hσ

/-- Witness for C2 at the concrete baseline mean = 20, std = 2 and the
reading 16. -/
theorem normality_band_rule_witness :
    is_temperature_normal [⟨"C", "S", 0, 20, some ((2 : ℚ) ^ 2), none, none, false⟩] "C" 16 "S"
      = some true :=
  (normality_band_rule.1 20 2 16 (by norm_num)).mpr (by norm_num)

/-! Structural lemmas about the rows process_data builds. -/

lemma mem_processAux {df seen rest : List Obs} {r : Row}
    (h : r ∈ processAux df seen rest) : ∃ j o, r = mkRow df j o := by
  induction rest generalizing seen with
  | nil => simp [processAux] at h
  | cons o rest ih =>
    rw [processAux, List.mem_cons] at h
    rcases h with h | h
    · exact ⟨_, _, h⟩
    · exact ih h

lemma popVar_nonneg (l : List ℚ) : 0 ≤ popVar l := by
  unfold popVar
  apply div_nonneg
  · apply List.sum_nonneg
    intro x hx
    obtain ⟨y, _, rfl⟩ := List.mem_map.mp hx
    exact sq_nonneg _
  · exact_mod_cast Nat.zero_le _

lemma rollingAt_popVar_nonneg {l : List ℚ} {j : ℕ} {v : ℚ}
    (h : rollingAt popVar l j = some v) : 0 ≤ v := by
  unfold rollingAt at h
  obtain ⟨w, _, rfl⟩ := Option.map_eq_some'.mp h
  exact popVar_nonneg w

lemma rollingAt_isSome_iff (f : List ℚ → ℚ) (l : List ℚ) (i : ℕ) :
    (rollingAt f l i).isSome = true ↔ (15 ≤ i ∧ i + 15 ≤ l.length) := by
  unfold rollingAt window30
  by_cases h : 15 ≤ i ∧ i + 15 ≤ l.length
  · simp [h]
  · simp [h]

/-- C1: a row of process_data is flagged anomalous exactly when its
rolling baseline is defined (both statistics non-NaN) and its temperature
lies strictly outside center - 2 * std .. center + 2 * std, std being the
square root of the stored radicand; in particular a temperature exactly
on a bound is not flagged, a row with an undefined baseline is never
flagged, and the flag is a total boolean, so no exception arises. -/
theorem anomaly_rule (df : List Obs) (r : Row) (hr : r ∈ processData df) :
    r.anomaly = true ↔
      ∃ m v, r.temp_m_avg = some m ∧ r.temp_m_var = some v ∧
        ((r.temperature : ℝ) < (m : ℝ) - 2 * Real.sqrt (v : ℝ) ∨
          (m : ℝ) + 2 * Real.sqrt (v : ℝ) < (r.temperature : ℝ)) := by
  obtain ⟨j, o, rfl⟩ := mem_processAux hr
  show anomalyFlag o.temperature (rollingAt nanmedian (cityTemps df o.city) j)
      (rollingAt popVar (cityTemps df o.city) j) = true ↔ _
  cases havg : rollingAt nanmedian (cityTemps df o.city) j with
  | none =>
    simp only [mkRow, havg, anomalyFlag]
    simp
  | some m =>
    cases hdev : rollingAt popVar (cityTemps df o.city) j with
    | none =>
      simp only [mkRow, havg, hdev, anomalyFlag]
      simp
    | some v =>
      have hv : (0 : ℝ) ≤ (v : ℝ) := by exact_mod_cast rollingAt_popVar_nonneg hdev
      simp only [mkRow, havg, hdev, anomalyFlag, Option.some.injEq]
      rw [outsideBand_iff]
      constructor
      · intro h
        exact ⟨m, v, rfl, rfl, h⟩
      · rintro ⟨m', v', hm, hv', h⟩
        cases hm
        cases hv'
        exact h

/-- Witness for C1 on a one-observation frame (rolling baseline
undefined, anomaly flag false). -/
theorem anomaly_rule_witness :
    ((processData [⟨"A", 0, "winter"⟩]).getD 0
        ⟨"A", "winter", 0, 0, none, none, none, false⟩).anomaly = true ↔
      ∃ m v,
        ((processData [⟨"A", 0, "winter"⟩]).getD 0
            ⟨"A", "winter", 0, 0, none, none, none, false⟩).temp_m_avg = some m ∧
        ((processData [⟨"A", 0, "winter"⟩]).getD 0
            ⟨"A", "winter", 0, 0, none, none, none, false⟩).temp_m_var = some v ∧
        ((((processData [⟨"A", 0, "winter"⟩]).getD 0
            ⟨"A", "winter", 0, 0, none, none, none, false⟩).temperature : ℝ) <
            (m : ℝ) - 2 * Real.sqrt (v : ℝ) ∨
          (m : ℝ) + 2 * Real.sqrt (v : ℝ) <
            (((processData [⟨"A", 0, "winter"⟩]).getD 0
              ⟨"A", "winter", 0, 0, none, none, none, false⟩).temperature : ℝ)) :=
  anomaly_rule [⟨"A", 0, "winter"⟩] _ (by simp [processData, processAux])

/-- C3 amended: at every position with a complete centered window the
rolling transform attaches the NaN-aware median (np.nanmedian) of the
30-element slice of indices i - 15 .. i + 14 as the center statistic and
the population variance radicand (the square of np.nanstd, ddof = 0) of
the same slice as the dispersion statistic; that slice has exactly 30
elements. -/
theorem rolling_mode_median_popvar (l : List ℚ) (i : ℕ)
    (h15 : 15 ≤ i) (hlen : i + 15 ≤ l.length) :
    rollingAt nanmedian l i = some (nanmedian ((l.drop (i - 15)).take 30)) ∧
    rollingAt popVar l i = some (popVar ((l.drop (i - 15)).take 30)) ∧
    ((l.drop (i - 15)).take 30).length = 30 := by
  have hw : window30 l i = some ((l.drop (i - 15)).take 30) := by
    unfold window30
    rw [if_pos ⟨h15, hlen⟩]
  refine ⟨by simp [rollingAt, hw], by simp [rollingAt, hw], ?_⟩
  rw [List.length_take, List.length_drop]
  omega

/-- Witness for C3 (amended) at a constant 30-element series and the
single complete position 15. -/
theorem rolling_mode_median_popvar_witness :
    rollingAt nanmedian (List.replicate 30 (0 : ℚ)) 15 =
      some (nanmedian (((List.replicate 30 (0 : ℚ)).drop (15 - 15)).take 30)) ∧
    rollingAt popVar (List.replicate 30 (0 : ℚ)) 15 =
      some (popVar (((List.replicate 30 (0 : ℚ)).drop (15 - 15)).take 30)) ∧
    (((List.replicate 30 (0 : ℚ)).drop (15 - 15)).take 30).length = 30 :=
  rolling_mode_median_popvar _ 15 (by decide) (by decide)

/-! Counting lemmas for the window completeness boundary. -/

lemma countP_le_range (a m : ℕ) :
    (List.range m).countP (fun i => decide (a ≤ i)) = m - a := by
  induction m with
  | zero => simp
  | succ m ih =>
    rw [List.range_succ, List.countP_append, ih]
    by_cases h : a ≤ m <;> simp [List.countP_cons, h] <;> omega

lemma countP_window (n : ℕ) :
    (List.range n).countP (fun i => decide (15 ≤ i ∧ i + 15 ≤ n)) =
      if 30 ≤ n then n - 29 else 0 := by
  by_cases h30 : 30 ≤ n
  · rw [if_pos h30]
    have hsplit : List.range n =
        List.range (n - 14) ++ (List.range 14).map fun x => (n - 14) + x := by
      conv_lhs => rw [show n = (n - 14) + 14 from by omega]
      exact List.range_add _ _
    rw [hsplit, List.countP_append, List.countP_map]
    have h2 : (List.range 14).countP
        ((fun i => decide (15 ≤ i ∧ i + 15 ≤ n)) ∘ fun x => (n - 14) + x) = 0 := by
      rw [List.countP_eq_zero]
      intro a ha
      rw [List.mem_range] at ha
      simp only [Function.comp_apply, decide_eq_true_eq, not_and]
      intro _
      omega
    have h1 : (List.range (n - 14)).countP (fun i => decide (15 ≤ i ∧ i + 15 ≤ n)) =
        (List.range (n - 14)).countP (fun i => decide (15 ≤ i)) := by
      apply List.countP_congr
      intro i hi
      rw [List.mem_range] at hi
      simp only [decide_eq_true_eq]
      constructor
      · exact fun h => h.1
      · intro h
        exact ⟨h, by omega⟩
    rw [h1, h2, countP_le_range]
    omega
  · rw [if_neg h30, List.countP_eq_zero]
    intro i hi
    rw [List.mem_range] at hi
    simp only [decide_eq_true_eq, not_and]
    intro _
    omega

/-- C4: the rolling column over a per-city series of N observations has N
cells; exactly N - 29 of them hold a defined (non-NaN) baseline when
30 <= N and none otherwise; and the defined cells are precisely the
positions i with 15 <= i and i + 15 <= N, so the first 15 and the last 14
positions of the series are undefined. -/
theorem rolling_defined_count (f : List ℚ → ℚ) (l : List ℚ) :
    (rollingApply f l).length = l.length ∧
    ((rollingApply f l).filter (fun o => o.isSome)).length =
      (if 30 ≤ l.length then l.length - 29 else 0) ∧
    (∀ i, i < l.length →
      (((rollingApply f l).getD i none).isSome = true ↔
        (15 ≤ i ∧ i + 15 ≤ l.length))) := by
  refine ⟨by simp [rollingApply], ?_, ?_⟩
  · rw [← List.countP_eq_length_filter, rollingApply, List.countP_map]
    rw [List.countP_congr ?_, countP_window]
    intro i hi
    simp only [Function.comp_apply, decide_eq_true_eq]
    exact rollingAt_isSome_iff f l i
  · intro i hi
    rw [rollingApply, List.getD_eq_getElem?_getD, List.getElem?_map,
      List.getElem?_range hi]
    exact rollingAt_isSome_iff f l i

/-- Witness for C4 on a 31-element series, checking the undefined cell at
position 0. -/
theorem rolling_defined_count_witness :
    ((rollingApply nanmedian (List.replicate 31 (0 : ℚ))).getD 0 none).isSome = true ↔
      (15 ≤ 0 ∧ 0 + 15 ≤ (List.replicate 31 (0 : ℚ)).length) :=
  (rolling_defined_count nanmedian _).2.2 0 (by decide)

/-- C3 counterexample: on the 30-observation series of 29 zeros followed
by one 30, the rolling center statistic at the complete position 15 is
the median 0 of the window, while the arithmetic mean of the same window
is 1: the default rolling mode is not mean-based. -/
theorem rolling_center_not_mean :
    rollingAt nanmedian skewSeries 15 = some 0 ∧
    listMean ((skewSeries.drop (15 - 15)).take 30) = 1 ∧
    rollingAt nanmedian skewSeries 15 ≠
      some (listMean ((skewSeries.drop (15 - 15)).take 30)) := by
  refine ⟨?_, ?_, ?_⟩ <;>
    norm_num [skewSeries, rollingAt, window30, nanmedian, listMean,
      List.insertionSort, List.orderedInsert]

/-! Lemmas relating the two variance conventions (ddof = 0 and ddof = 1). -/

lemma sum_centeredSq_pos {l : List ℚ} (hne : ∃ a ∈ l, ∃ b ∈ l, a ≠ b) :
    0 < (centeredSq l).sum := by
  obtain ⟨a, ha, b, hb, hab⟩ := hne
  have hx : ∃ x ∈ l, x ≠ listMean l := by
    by_cases h : a = listMean l
    · refine ⟨b, hb, fun hbm => hab ?_⟩
      rw [h, hbm]
    · exact ⟨a, ha, h⟩
  obtain ⟨x, hxl, hxm⟩ := hx
  have hmem : (x - listMean l) ^ 2 ∈ centeredSq l := List.mem_map_of_mem _ hxl
  have hpos : 0 < (x - listMean l) ^ 2 := by
    have hne0 : x - listMean l ≠ 0 := sub_ne_zero.mpr hxm
    exact lt_of_le_of_ne (sq_nonneg _) (Ne.symm (pow_ne_zero 2 hne0))
  have hnn : ∀ y ∈ centeredSq l, 0 ≤ y := by
    intro y hy
    obtain ⟨z, _, rfl⟩ := List.mem_map.mp hy
    exact sq_nonneg _
  exact lt_of_lt_of_le hpos (List.single_le_sum hnn _ hmem)

lemma popVar_eq_scaled (l : List ℚ) (h2 : 2 ≤ l.length) :
    popVar l = ((l.length : ℚ) - 1) / (l.length : ℚ) * sampleVar l := by
  have hn0 : (l.length : ℚ) ≠ 0 := by
    exact_mod_cast Nat.pos_iff_ne_zero.mp (by omega)
  have hn1 : (l.length : ℚ) - 1 ≠ 0 := by
    have h2q : (2 : ℚ) ≤ (l.length : ℚ) := by exact_mod_cast h2
    intro hq
    rw [sub_eq_zero] at hq
    rw [hq] at h2q
    norm_num at h2q
  unfold popVar sampleVar
  field_simp
  ring

/-- C10: the rolling dispersion statistic is the population standard
deviation (np.nanstd, ddof = 0) while the seasonal dispersion is the
sample standard deviation (pandas std, ddof = 1); on any common list of
n >= 2 not-all-equal temperatures the former equals the latter scaled by
sqrt((n - 1) / n) and is strictly smaller. -/
theorem dispersion_ddof_factor (l : List ℚ) (h2 : 2 ≤ l.length)
    (hne : ∃ a ∈ l, ∃ b ∈ l, a ≠ b) :
    Real.sqrt ((popVar l : ℝ)) =
      Real.sqrt (((l.length : ℝ) - 1) / (l.length : ℝ)) *
        Real.sqrt ((sampleVar l : ℝ)) ∧
    Real.sqrt ((popVar l : ℝ)) < Real.sqrt ((sampleVar l : ℝ)) := by
  have h2q : (2 : ℝ) ≤ (l.length : ℝ) := by exact_mod_cast h2
  have hS : 0 < (centeredSq l).sum := sum_centeredSq_pos hne
  have hsv : 0 < sampleVar l := by
    unfold sampleVar
    apply div_pos hS
    have : (2 : ℚ) ≤ (l.length : ℚ) := by exact_mod_cast h2
    linarith
  have hfac : (0 : ℝ) ≤ ((l.length : ℝ) - 1) / (l.length : ℝ) :=
    div_nonneg (by linarith) (by linarith)
  have heq : (popVar l : ℝ) =
      ((l.length : ℝ) - 1) / (l.length : ℝ) * (sampleVar l : ℝ) := by
    rw [popVar_eq_scaled l h2]
    push_cast
    ring
  have hmul : Real.sqrt ((popVar l : ℝ)) =
      Real.sqrt (((l.length : ℝ) - 1) / (l.length : ℝ)) *
        Real.sqrt ((sampleVar l : ℝ)) := by
    rw [heq, Real.sqrt_mul hfac]
  refine ⟨hmul, ?_⟩
  rw [hmul]
  have hsv' : 0 < Real.sqrt ((sampleVar l : ℝ)) :=
    Real.sqrt_pos.mpr (by exact_mod_cast hsv)
  have hlt1 : Real.sqrt (((l.length : ℝ) - 1) / (l.length : ℝ)) < 1 := by
    rw [Real.sqrt_lt' (by norm_num : (0 : ℝ) < 1), one_pow,
      div_lt_one (by linarith)]
    linarith
  calc Real.sqrt (((l.length : ℝ) - 1) / (l.length : ℝ)) *
        Real.sqrt ((sampleVar l : ℝ))
      < 1 * Real.sqrt ((sampleVar l : ℝ)) := by
        exact mul_lt_mul_of_pos_right hlt1 hsv'
    _ = Real.sqrt ((sampleVar l : ℝ)) := one_mul _

/-- Witness for C10 on the list of the two readings 0 and 2. -/
theorem dispersion_ddof_factor_witness :
    Real.sqrt ((popVar [0, 2] : ℝ)) =
      Real.sqrt ((((0 : ℚ) :: [(2 : ℚ)]).length - 1) / (((0 : ℚ) :: [(2 : ℚ)]).length : ℝ)) *
        Real.sqrt ((sampleVar [0, 2] : ℝ)) ∧
    Real.sqrt ((popVar [0, 2] : ℝ)) < Real.sqrt ((sampleVar [0, 2] : ℝ)) :=
  dispersion_ddof_factor [0, 2] (by decide)
    ⟨0, by simp, 2, by simp, by norm_num⟩

/-- C5 amended: the seasonal baseline process_data merges into each row,
and which the classifier then reads, is aggregated from the raw
temperatures of the (city, season) group of the input frame, not from the
rolling center statistics. -/
theorem seasonal_baseline_from_raw (df : List Obs) (r : Row)
    (hr : r ∈ processData df) :
    r.seasonal_mean = listMean (seasonTemps df r.city r.season) ∧
    r.seasonal_var = sampleVarOpt (seasonTemps df r.city r.season) := by
  obtain ⟨j, o, rfl⟩ := mem_processAux hr
  exact ⟨rfl, rfl⟩

/-- Witness for C5 (amended) on a one-observation frame. -/
theorem seasonal_baseline_from_raw_witness :
    ((processData [⟨"A", 5, "winter"⟩]).getD 0
        ⟨"A", "winter", 0, 0, none, none, none, false⟩).seasonal_mean =
      listMean (seasonTemps [⟨"A", 5, "winter"⟩]
        ((processData [⟨"A", 5, "winter"⟩]).getD 0
          ⟨"A", "winter", 0, 0, none, none, none, false⟩).city
        ((processData [⟨"A", 5, "winter"⟩]).getD 0
          ⟨"A", "winter", 0, 0, none, none, none, false⟩).season) ∧
    ((processData [⟨"A", 5, "winter"⟩]).getD 0
        ⟨"A", "winter", 0, 0, none, none, none, false⟩).seasonal_var =
      sampleVarOpt (seasonTemps [⟨"A", 5, "winter"⟩]
        ((processData [⟨"A", 5, "winter"⟩]).getD 0
          ⟨"A", "winter", 0, 0, none, none, none, false⟩).city
        ((processData [⟨"A", 5, "winter"⟩]).getD 0
          ⟨"A", "winter", 0, 0, none, none, none, false⟩).season) :=
  seasonal_baseline_from_raw [⟨"A", 5, "winter"⟩] _ (by simp [processData, processAux])

/-- C5 counterexample: on a two-observation frame for (city A, winter)
the classifier reads the seasonal mean 5, the mean of the raw
temperatures 0 and 10, while every center_stat of that season is NaN, so
no aggregation of the already-smoothed center_stat values can produce the
baseline actually used: the baseline source is not the rolling-derived
one. -/
theorem baseline_source_counterexample :
    usedSeasonalMean (processData [⟨"A", 0, "winter"⟩, ⟨"A", 10, "winter"⟩])
      "A" "winter" = some 5 ∧
    specCenterStatSeasonalMean (processData [⟨"A", 0, "winter"⟩, ⟨"A", 10, "winter"⟩])
      "A" "winter" = none ∧
    (processData [⟨"A", 0, "winter"⟩, ⟨"A", 10, "winter"⟩]).map (fun r => r.temp_m_avg)
      = [none, none] ∧
    listMean (seasonTemps [⟨"A", 0, "winter"⟩, ⟨"A", 10, "winter"⟩] "A" "winter") = 5 := by
  refine ⟨?_, ?_, ?_, ?_⟩ <;>
    norm_num [processData, processAux, mkRow, countCity, cityTemps, seasonTemps,
      sampleVarOpt, sampleVar, centeredSq, listMean, rollingAt, window30, anomalyFlag,
      usedSeasonalMean, specCenterStatSeasonalMean, List.filter, List.filterMap]

/-- C6: with no historical row for the requested (city, season) pair the
classifier evaluates .values[0] of an empty selection; the embedded
result none models the IndexError this raises in the source, not a
surfaced baseline-unavailable condition and not a default
classification. -/
theorem classifier_empty_lookup_crash :
    is_temperature_normal (processData [⟨"A", 25, "summer"⟩]) "A" 10 "winter" = none := by
  norm_num [processData, processAux, mkRow, countCity, cityTemps, seasonTemps,
    sampleVarOpt, sampleVar, centeredSq, listMean, rollingAt, window30, anomalyFlag,
    is_temperature_normal, List.filter]
  simp

/-- C7: any non-200 status makes the lookup return the explicit
no-reading signal None, and the classification stage of main then
returns early: the classifier is never invoked and no numeric error
value enters the decision rule. -/
theorem lookup_failure_skips_classification (resp : WeatherResponse)
    (h : resp.status ≠ 200) :
    get_current_temperature resp = none ∧
    ∀ (rows : List Row) (c s : String), mainClassify rows c s resp = none := by
  have hg : get_current_temperature resp = none := by
    unfold get_current_temperature
    rw [if_pos h]
  refine ⟨hg, ?_⟩
  intro rows c s
  simp [mainClassify, hg, pythonFalsy]

/-- Witness for C7 at the concrete status 404. -/
theorem lookup_failure_skips_classification_witness :
    get_current_temperature ⟨404, 5⟩ = none ∧
    mainClassify [] "A" "winter" ⟨404, 5⟩ = none :=
  ⟨(lookup_failure_skips_classification ⟨404, 5⟩ (by decide)).1,
    (lookup_failure_skips_classification ⟨404, 5⟩ (by decide)).2 [] "A" "winter"⟩

/-- C9: a successful lookup (status 200) returning exactly 0.0 yields
some 0, yet the truthiness guard of main treats it like a failed lookup:
the classification stage returns early and the classifier is never
invoked, exactly as for a non-200 response. -/
theorem zero_reading_treated_as_failure :
    ∀ (rows : List Row) (c s : String),
      get_current_temperature ⟨200, 0⟩ = some 0 ∧
      mainClassify rows c s ⟨200, 0⟩ = none ∧
      mainClassify rows c s ⟨404, 0⟩ = none := by
  intro rows c s
  refine ⟨?_, ?_, ?_⟩ <;>
    simp [get_current_temperature, mainClassify, pythonFalsy]

/-! Per-city noninterference: the rows process_data produces for one city
are a function of that city sub-frame alone. -/

lemma mkRow_city (df : List Obs) (j : ℕ) (o : Obs) : (mkRow df j o).city = o.city := rfl

lemma seasonTemps_eq_sub (df : List Obs) (c s : String) :
    seasonTemps df c s =
      ((df.filter fun p => p.city = c).filter fun p => p.season = s).map
        fun p => p.temperature := by
  unfold seasonTemps
  rw [List.filter_filter]
  congr 1
  apply List.filter_congr
  intro x _
  exact Bool.and_comm _ _

lemma mkRow_filter_eq (df : List Obs) (j : ℕ) (o : Obs) :
    mkRow df j o = mkRowSub (df.filter fun p => p.city = o.city) j o := by
  unfold mkRow mkRowSub cityTemps
  rw [seasonTemps_eq_sub]

lemma countCity_append_one (seen : List Obs) (o : Obs) (A : String) :
    countCity (seen ++ [o]) A = countCity seen A + (if o.city = A then 1 else 0) := by
  unfold countCity
  rw [List.filter_append, List.length_append]
  by_cases h : o.city = A <;> simp [List.filter, h]

lemma processAux_filter (A : String) (df : List Obs) (rest : List Obs) :
    ∀ seen : List Obs,
      (processAux df seen rest).filter (fun r => r.city = A) =
        subProcess (df.filter fun o => o.city = A) (countCity seen A)
          (rest.filter fun o => o.city = A) := by
  induction rest with
  | nil =>
    intro seen
    simp [processAux, subProcess]
  | cons o rest ih =>
    intro seen
    rw [processAux]
    simp only [List.filter_cons]
    by_cases hA : o.city = A
    · simp only [mkRow_city, hA, decide_True, if_true]
      rw [ih (seen ++ [o]), countCity_append_one, if_pos hA, subProcess]
      subst hA
      rw [mkRow_filter_eq]
    · simp only [mkRow_city, hA, decide_False, if_false]
      rw [ih (seen ++ [o]), countCity_append_one, if_neg hA]
      simp

/-- C8: per-city noninterference of process_data: whenever two input
frames agree on the sub-frame of city A (same observations, same order),
every derived quantity for the rows of A (seasonal baseline, rolling
baseline, anomaly flag) is identical, whatever the observations of the
other cities are. -/
theorem per_city_noninterference (df1 df2 : List Obs) (A : String)
    (h : df1.filter (fun o => o.city = A) = df2.filter (fun o => o.city = A)) :
    (processData df1).filter (fun r => r.city = A) =
      (processData df2).filter (fun r => r.city = A) := by
  unfold processData
  rw [processAux_filter A df1 df1 [], processAux_filter A df2 df2 [], h]

/-- Witness for C8: the city B observations differ entirely, the city A
rows of the output agree. -/
theorem per_city_noninterference_witness :
    (processData [⟨"A", 1, "winter"⟩, ⟨"B", 5, "winter"⟩]).filter
        (fun r => r.city = "A") =
      (processData [⟨"A", 1, "winter"⟩, ⟨"B", 100, "summer"⟩]).filter
        (fun r => r.city = "A") :=
  per_city_noninterference _ _ "A" (by simp [List.filter])

end WeatherAnalysis
